import Mathlib

/-!
Verification of `a2sensor/sensor_denormalizer/denormalizer.py`.

The development shallowly embeds the `Denormalizer` class: measurement
records are JSON values, the storage folder is a finite map from sensor id
to a directory listing, Python exceptions are modelled with `Except`, and
every call to `datetime.now()` (already composed with `format_date`) is a
read of an abstract clock `clock : Nat → String` at an explicit index so
that the order of clock reads is observable.
-/

namespace A2Sensor

/-- JSON values, as produced by `json.load`.  Numeric payloads are opaque to
the denormalizer (it never computes with them), so they are carried as `Int`. -/
inductive Json where
  | null : Json
  | bool : Bool → Json
  | num : Int → Json
  | str : String → Json
  | arr : List Json → Json
  | obj : List (String × Json) → Json

/-- The Python exceptions that the code under `src/` can raise on the paths
modelled here. -/
inductive PyErr where
  | valueError
  | jsonDecodeError
  | attributeError
  | keyError
  | fileNotFound
deriving DecidableEq, Repr

/-- One configured sensor, as stored in `self._sensors` (a dict read from the
TOML configuration file).  `pin = none` models the `pin` key being absent in
the source; `index = none` models the `index` key being absent (it is set by
`configure`).  The mandatory `name` key is carried as a plain field. -/
structure SensorAttrs where
  name : String
  pin : Option Int
  index : Option Nat
deriving DecidableEq, Repr

/-- A directory entry under `storageFolder/sensorId`: a regular file with its
parsed content (`none` content means the file exists but `json.load` fails on
it), or a subdirectory. -/
inductive FSEntry where
  | file (content : Option Json)
  | subdir

/-- The storage folder: a finite map from sensor id to the listing of the
directory `storageFolder/sensorId`; a sensor id absent from `dirs` models
`os.path.exists(directory)` being false. -/
structure FS where
  dirs : List (String × List (String × FSEntry))

/-- Whether a directory entry is a regular file (`os.path.isfile`). -/
def FSEntry.isFile : FSEntry → Bool
  | .file _ => true
  | .subdir => false

/-- Content of the regular file `fname` in the directory of `sensorId`;
`none` when no such regular file exists (opening it would fail). -/
def FS.readFile (fs : FS) (sensorId fname : String) : Option (Option Json) :=
  match fs.dirs.lookup sensorId with
  | none => none
  | some entries =>
    match entries.lookup fname with
    | some (.file c) => some c
    | some .subdir => none
    | none => none

/-- Python's `<` on strings: lexicographic comparison of the sequences of
code points. -/
def charListLt : List Char → List Char → Bool
  | [], [] => false
  | [], _ :: _ => true
  | _ :: _, [] => false
  | a :: as, b :: bs =>
    if a.toNat < b.toNat then true
    else if b.toNat < a.toNat then false
    else charListLt as bs

/-- Python's `<` on strings, on `String`. -/
def strLt (a b : String) : Bool :=
  charListLt a.data b.data

/-- Python's `max` over a list of strings (`max(files, key=os.path.basename)`
with `files` a list of paths in one directory, so the key is the file name):
raises `ValueError` on an empty sequence, otherwise keeps the current maximum
and replaces it only on a strictly greater element. -/
def pyMax (l : List String) : Except PyErr String :=
  match l with
  | [] => .error .valueError
  | x :: xs => .ok (xs.foldl (fun acc f => if strLt acc f then f else acc) x)

/-- Embeds `Denormalizer.latest_measure_file` (denormalizer.py lines 151-166).
Returns the name of the selected measurement file (the Python code returns
the full path `storageFolder/sensorId/f`; the directory part is determined by
`sensorId`, so only the base name is carried here). -/
def latest_measure_file (fs : FS) (sensorId : String) : Except PyErr (Option String) :=
  match fs.dirs.lookup sensorId with
  | none => .ok none
  | some entries =>
    (pyMax ((entries.filter (fun e => e.2.isFile)).map (fun e => e.1))).map some

/-- Python's `dict.get(key, default)` on a parsed JSON value: raises `AttributeError`
when the receiver is not a dict. -/
def Json.getd (j : Json) (key : String) (dflt : Json) : Except PyErr Json :=
  match j with
  | .obj kvs => .ok ((kvs.lookup key).getD dflt)
  | _ => .error .attributeError

/-- Python's `dict.get(key, None)` followed by an `is not None` test: a key that is
absent and a key whose value is JSON `null` both give Python `None`, so both
are mapped to `none`. -/
def Json.getOptNotNull (j : Json) (key : String) : Except PyErr (Option Json) :=
  match j with
  | .obj kvs =>
    .ok (match kvs.lookup key with
         | some .null => none
         | other => other)
  | _ => .error .attributeError

/-- The synthetic value `{"status": "unknown", "timestamp": ts}` built at
denormalizer.py lines 184-186 and line 227. -/
def unknownValue (ts : String) : Json :=
  .obj [("status", .str "unknown"), ("timestamp", .str ts)]

/-- The synthetic measurement record built by `latest_measure` when no file
exists (denormalizer.py lines 181-187): `{id, name, value: {...}}`. -/
def syntheticMeasure (sensorId name ts : String) : Json :=
  .obj [("id", .str sensorId), ("name", .str name), ("value", unknownValue ts)]

/-- Embeds `Denormalizer.latest_measure` (denormalizer.py lines 168-189), over the
sensor dict `sensors` (the code reads `self.sensors[sensorId]['name']`).
`k` is the index of the next unread clock value; the branch with no
measurement file consumes one clock read (`datetime.now()` at line 186),
the file branch consumes none. -/
def latest_measure (fs : FS) (sensors : List (String × SensorAttrs))
    (sensorId : String) (clock : Nat → String) (k : Nat) :
    Except PyErr (Json × Nat) :=
  match latest_measure_file fs sensorId with
  | .error e => .error e
  | .ok (some f) =>
    match fs.readFile sensorId f with
    | some (some j) => .ok (j, k)
    | some none => .error .jsonDecodeError
    | none => .error .fileNotFound
  | .ok none =>
    match sensors.lookup sensorId with
    | none => .error .keyError
    | some attrs => .ok (syntheticMeasure sensorId attrs.name (clock k), k + 1)

/-- The test `self.sensors[sensorId].get("pin", -1) == -1` at
denormalizer.py line 226: a missing pin defaults to the sentinel `-1`. -/
def isUnwired (attrs : SensorAttrs) : Bool :=
  attrs.pin.getD (-1) == -1

/-- One row of the aggregate output: the dict `{id, name, value}` assembled
at denormalizer.py lines 223-238. -/
structure Entry where
  id : String
  name : String
  value : Json

/-- The per-sensor derivation of an output entry from a measurement record
(denormalizer.py lines 230-238): extract `value`, test `status` and
`timestamp`, keep the nested `value` object when both are present and fall
back to the whole raw record otherwise.  The configured `name` and the
sensor id were stored at lines 224-225, so they override whatever the record
carries.  (The `del measure["value"]` at line 236 mutates a local dict that
is never used again, so it has no observable effect.) -/
def deriveEntry (sensorId : String) (attrs : SensorAttrs) (measure : Json) :
    Except PyErr Entry :=
  match measure.getd "value" (.obj []) with
  | .error e => .error e
  | .ok value =>
    match value.getOptNotNull "status" with
    | .error e => .error e
    | .ok status =>
      match value.getOptNotNull "timestamp" with
      | .error e => .error e
      | .ok lastModified =>
        if status.isSome && lastModified.isSome then
          .ok { id := sensorId, name := attrs.name, value := value }
        else
          .ok { id := sensorId, name := attrs.name, value := measure }

/-- The body of the `for sensorId in self.sensors` loop of
`refresh_output_file` (denormalizer.py lines 222-239), processing the
remaining sensor list and threading the clock index.  Returns the entries
appended, the number of times `sensors_refreshed` was incremented, and the
next clock index.  The Python code increments the counter (line 229) before
calling `latest_measure`, but the count is only ever observed when the whole
loop finishes without an exception, so accumulating it on success is
observationally equivalent. -/
def refreshLoop (sensors : List (String × SensorAttrs)) (fs : FS)
    (clock : Nat → String) (timestamp : String) :
    List (String × SensorAttrs) → Nat → Except PyErr (List Entry × Nat × Nat)
  | [], k => .ok ([], 0, k)
  | (sensorId, attrs) :: rest, k =>
    if isUnwired attrs then
      match refreshLoop sensors fs clock timestamp rest k with
      | .error e => .error e
      | .ok (es, n, k') =>
        .ok ({ id := sensorId, name := attrs.name, value := unknownValue timestamp } :: es,
             n, k')
    else
      match latest_measure fs sensors sensorId clock k with
      | .error e => .error e
      | .ok (measure, k') =>
        match deriveEntry sensorId attrs measure with
        | .error e => .error e
        | .ok entry =>
          match refreshLoop sensors fs clock timestamp rest k' with
          | .error e => .error e
          | .ok (es, n, k'') => .ok (entry :: es, n + 1, k'')

/-- Result of one refresh cycle: `output = some es` when the aggregate was
serialized and written (fully replacing the file), `none` when the output
file was not touched; `refreshed` is the final `sensors_refreshed` counter
and `clockNext` the next unread clock index. -/
structure RefreshResult where
  output : Option (List Entry)
  refreshed : Nat
  clockNext : Nat

/-- Embeds `Denormalizer.refresh_output_file` (denormalizer.py lines 213-245).
Clock read 0 is `datetime.now()` at line 219, formatted into the cycle
timestamp at line 220; the loop then starts at clock index 1.  The write at
lines 241-242 happens exactly when `sensors_refreshed > 0`.  (The
`datetime.now()` inside the log message at line 244 only feeds the log and
is not modelled.) -/
def refresh_output_file (sensors : List (String × SensorAttrs)) (fs : FS)
    (clock : Nat → String) : Except PyErr RefreshResult :=
  match refreshLoop sensors fs clock (clock 0) sensors 1 with
  | .error e => .error e
  | .ok (es, n, k) => .ok ⟨if 0 < n then some es else none, n, k⟩

/-- Embeds `Denormalizer.save_output_file` (denormalizer.py lines 191-200): it opens the
output file with mode `"w"`, truncating it, so a written cycle fully
replaces the prior content and an unwritten cycle leaves it untouched.  The
serializer (`json.dump`) is abstracted as a parameter. -/
def artifactAfter (serialize : List Entry → String) (prev : String)
    (r : RefreshResult) : String :=
  match r.output with
  | some es => serialize es
  | none => prev

/-- Embeds `Denormalizer.configure` (denormalizer.py lines 120-130): stores each
sensor of the TOML file, in file order, adding `attributes["index"]`; no
other key is touched. -/
def configureFrom (i : Nat) :
    List (String × SensorAttrs) → List (String × SensorAttrs)
  | [] => []
  | (sensorId, attrs) :: rest =>
    (sensorId, { attrs with index := some i }) :: configureFrom (i + 1) rest

/-- Embeds `Denormalizer.configure` starting at index 0 (denormalizer.py line 126). -/
def configure (config : List (String × SensorAttrs)) :
    List (String × SensorAttrs) :=
  configureFrom 0 config

/-- The external world at one tick: the content of the configuration source
and the state of the storage folder. -/
structure World where
  configSource : List (String × SensorAttrs)
  fs : FS

/-- The state of a `Denormalizer` instance: `self._sensors`, set by the
single `configure()` call in `__init__` (denormalizer.py line 64) and never
written again. -/
structure Denormalizer where
  sensors : List (String × SensorAttrs)

/-- Embeds `Denormalizer.__init__` (denormalizer.py lines 45-64): reads the
configuration source once, at construction. -/
def Denormalizer.init (w : World) : Denormalizer :=
  ⟨configure w.configSource⟩

/-- Embeds `Denormalizer.run` (denormalizer.py lines 247-254) for `n` ticks:
each iteration calls `refresh_output_file`, which re-reads the storage
folder of the current tick but uses the `self._sensors` fixed at
construction.  An exception other than `KeyboardInterrupt` propagates out of
the `try` (which catches only `KeyboardInterrupt`) and ends the loop, so the
tick list stops at the first error. -/
def runTicks (d : Denormalizer) (worlds : Nat → World) (clock : Nat → String) :
    Nat → List (Except PyErr RefreshResult)
  | 0 => []
  | n + 1 =>
    match refresh_output_file d.sensors (worlds 0).fs clock with
    | .error e => [.error e]
    | .ok r => .ok r :: runTicks d (fun i => worlds (i + 1)) clock n

/-! ## Concrete inputs used by counterexamples and witnesses -/

/-- A deterministic clock: the formatted value of the k-th `datetime.now()`
read of a cycle. -/
def clk : Nat → String
  | 0 => "T0"
  | 1 => "T1"
  | _ => "T2"

/-- A storage folder with no sensor directories at all. -/
def emptyFS : FS :=
  ⟨[]⟩

/-- A single wired sensor (pin 4). -/
def cfgOneWired : List (String × SensorAttrs) :=
  [("s1", ⟨"A", some 4, none⟩)]

/-- Sensor directory `s1` exists but is empty. -/
def fsEmptyDir : FS :=
  ⟨[("s1", [])]⟩

/-- Sensor directory `s1` exists but holds only a subdirectory. -/
def fsOnlySub : FS :=
  ⟨[("s1", [("sub", .subdir)])]⟩

/-- Measurement files `a.json`, `b.json`, `c.json` (plus a subdirectory),
listed in increasing name order. -/
def fsABC : FS :=
  ⟨[("s1", [("a.json", .file (some .null)), ("b.json", .file (some .null)),
            ("c.json", .file (some .null)), ("sub", .subdir)])]⟩

/-- The same three measurement files, listed in decreasing name order. -/
def fsCBA : FS :=
  ⟨[("s1", [("c.json", .file (some .null)), ("b.json", .file (some .null)),
            ("a.json", .file (some .null))])]⟩

/-- Two wired sensors. -/
def cfgTwoWired : List (String × SensorAttrs) :=
  [("s1", ⟨"A", some 4, none⟩), ("s2", ⟨"B", some 5, none⟩)]

/-- The sole measurement file of `s1` cannot be parsed, while `s2` has a
perfectly readable measurement. -/
def fsBadParse : FS :=
  ⟨[("s1", [("a.json", .file none)]),
    ("s2", [("b.json", .file (some (.obj [("value",
      .obj [("status", .str "ok"), ("timestamp", .str "TT")])])))])]⟩

/-- One unwired sensor followed by one wired sensor without measurements. -/
def cfgMixed : List (String × SensorAttrs) :=
  [("u1", ⟨"U", none, none⟩), ("w1", ⟨"W", some 2, none⟩)]

/-- The measurement record of the spec's worked example. -/
def measureTemp : Json :=
  .obj [("name", .str "Temp"),
        ("value", .obj [("status", .str "ok"), ("timestamp", .str "T1"),
                        ("unit", .str "C")])]

/-- A second sensor appearing in the configuration source from tick 1 on,
with the storage folder unchanged. -/
def worldsGrow : Nat → World
  | 0 => ⟨cfgOneWired, emptyFS⟩
  | _ + 1 => ⟨cfgOneWired ++ [("s2", ⟨"B", some 5, none⟩)], emptyFS⟩

/-- The same filesystem at every tick, configuration source never changing. -/
def worldsStatic : Nat → World :=
  fun _ => ⟨cfgOneWired, emptyFS⟩

/-! ## Helper lemmas -/

/-- A successfully derived entry always carries the configured name and the
sensor id. -/
theorem deriveEntry_ok {sensorId : String} {attrs : SensorAttrs}
    {measure : Json} {e : Entry}
    (h : deriveEntry sensorId attrs measure = .ok e) :
    e.id = sensorId ∧ e.name = attrs.name := by
  unfold deriveEntry at h
  repeat' split at h
  all_goals cases h
  all_goals exact ⟨rfl, rfl⟩

/-- The refresh loop, when it finishes without an exception, produces the
entries in configuration order, one per configured sensor, and counts
exactly the wired sensors. -/
theorem refreshLoop_ok (S : List (String × SensorAttrs)) (fs : FS)
    (clock : Nat → String) (ts : String) :
    ∀ (l : List (String × SensorAttrs)) (k : Nat) (es : List Entry) (n k' : Nat),
      refreshLoop S fs clock ts l k = .ok (es, n, k') →
      es.map (fun e => e.id) = l.map (fun p => p.1) ∧
      n = (l.filter (fun p => !isUnwired p.2)).length := by
  intro l
  induction l with
  | nil =>
    intro k es n k' h
    unfold refreshLoop at h
    cases h
    exact ⟨rfl, rfl⟩
  | cons p rest ih =>
    obtain ⟨sid, attrs⟩ := p
    intro k es n k' h
    unfold refreshLoop at h
    by_cases hu : isUnwired attrs
    · rw [if_pos hu] at h
      cases hr : refreshLoop S fs clock ts rest k with
      | error err => rw [hr] at h; cases h
      | ok t =>
        obtain ⟨es₀, n₀, k₀⟩ := t
        rw [hr] at h
        cases h
        obtain ⟨ih1, ih2⟩ := ih _ _ _ _ hr
        refine ⟨by simp [ih1], ?_⟩
        simp [List.filter_cons, hu, ih2]
    · rw [if_neg hu] at h
      cases hm : latest_measure fs S sid clock k with
      | error err => rw [hm] at h; cases h
      | ok t =>
        obtain ⟨measure, k₁⟩ := t
        rw [hm] at h
        dsimp only at h
        cases hd : deriveEntry sid attrs measure with
        | error err => rw [hd] at h; cases h
        | ok entry =>
          rw [hd] at h
          dsimp only at h
          cases hr : refreshLoop S fs clock ts rest k₁ with
          | error err => rw [hr] at h; cases h
          | ok t2 =>
            obtain ⟨es₀, n₀, k₀⟩ := t2
            rw [hr] at h
            cases h
            obtain ⟨ih1, ih2⟩ := ih _ _ _ _ hr
            obtain ⟨hid, _⟩ := deriveEntry_ok hd
            refine ⟨by simp [ih1, hid], ?_⟩
            have hw : (!isUnwired attrs) = true := by simp [hu]
            simp [List.filter_cons, hw, ih2]

/-- If one `dict.get(key, None)` on a value succeeded, the value is a dict,
so `dict.get` with any other key also succeeds. -/
theorem getOptNotNull_ok_of_ok {v : Json} {key key' : String} {x : Option Json}
    (h : v.getOptNotNull key = .ok x) :
    ∃ y, v.getOptNotNull key' = .ok y := by
  cases v <;> first
    | exact ⟨_, rfl⟩
    | simp [Json.getOptNotNull] at h

/-- The refresh result of a cycle over `cfgOneWired` and `emptyFS`. -/
def rOneWired : RefreshResult :=
  ⟨some [⟨"s1", "A", unknownValue "T1"⟩], 1, 2⟩

/-! ## Claims -/

/-- C1 counterexample: sensor `s1` is wired (pin 4) and its latest
measurement file cannot be resolved (`latest_measure_file` gives `none`
because the storage folder has no directory for it), yet the cycle's
"sensors refreshed" counter ends at 1, not 0: `refresh_output_file`
increments the counter for every wired sensor before attempting to resolve
its measurement. -/
theorem c1_counterexample :
    isUnwired (⟨"A", some 4, none⟩ : SensorAttrs) = false ∧
    latest_measure_file emptyFS "s1" = .ok none ∧
    (refresh_output_file cfgOneWired emptyFS clk).map (fun r => r.refreshed) =
      .ok 1 :=
  ⟨rfl, rfl, rfl⟩

/-- C1 (amended): in each refresh cycle that completes without an exception,
the "sensors refreshed" counter equals the number of wired sensors
(pin present and different from the sentinel -1) in the configuration,
regardless of whether their measurement files were resolved; unwired
sensors never increment it. -/
theorem c1_wired_counter (cfg : List (String × SensorAttrs)) (fs : FS)
    (clock : Nat → String) (r : RefreshResult)
    (h : refresh_output_file cfg fs clock = .ok r) :
    r.refreshed = (cfg.filter (fun p => !isUnwired p.2)).length := by
  unfold refresh_output_file at h
  cases hl : refreshLoop cfg fs clock (clock 0) cfg 1 with
  | error err => rw [hl] at h; cases h
  | ok t =>
    obtain ⟨es, n, k⟩ := t
    rw [hl] at h
    cases h
    exact (refreshLoop_ok cfg fs clock (clock 0) cfg 1 es n k hl).2

/-- C1 witness: the amended claim evaluated on `cfgOneWired` over the empty
storage folder. -/
theorem c1_wired_counter_witness :
    rOneWired.refreshed = (cfgOneWired.filter (fun p => !isUnwired p.2)).length :=
  c1_wired_counter cfgOneWired emptyFS clk rOneWired rfl

/-- C2 counterexample: the storage root is empty and every configured sensor
is wired, yet the cycle writes the output artifact (with an all-unknown
snapshot), because the counter counts wired sensors whether or not a
measurement was resolved. -/
theorem c2_counterexample :
    emptyFS.dirs = [] ∧
    cfgOneWired.all (fun p => !isUnwired p.2) = true ∧
    (refresh_output_file cfgOneWired emptyFS clk).map (fun r => r.output) =
      .ok (some [⟨"s1", "A", unknownValue "T1"⟩]) :=
  ⟨rfl, rfl, rfl⟩

/-- C2 (amended): the output artifact is written, fully replacing the prior
content, exactly when the "sensors refreshed" counter is positive, and left
unchanged otherwise; but the counter is positive exactly when the
configuration has at least one wired sensor, so an empty storage root with
all sensors wired still overwrites the artifact. -/
theorem c2_write_policy (serialize : List Entry → String) (prev : String)
    (cfg : List (String × SensorAttrs)) (fs : FS) (clock : Nat → String)
    (r : RefreshResult) (h : refresh_output_file cfg fs clock = .ok r) :
    (r.output.isSome ↔ 0 < r.refreshed) ∧
    (r.output = none → artifactAfter serialize prev r = prev) ∧
    (r.output.isSome ↔ 0 < (cfg.filter (fun p => !isUnwired p.2)).length) := by
  unfold refresh_output_file at h
  cases hl : refreshLoop cfg fs clock (clock 0) cfg 1 with
  | error err => rw [hl] at h; cases h
  | ok t =>
    obtain ⟨es, n, k⟩ := t
    rw [hl] at h
    cases h
    have hn := (refreshLoop_ok cfg fs clock (clock 0) cfg 1 es n k hl).2
    refine ⟨?_, ?_, ?_⟩
    · by_cases h0 : 0 < n <;> simp [h0]
    · intro ho
      dsimp only at ho
      simp [artifactAfter, ho]
    · rw [← hn]
      by_cases h0 : 0 < n <;> simp [h0]

/-- C2 witness: the amended claim evaluated on `cfgOneWired` over the empty
storage folder. -/
theorem c2_write_policy_witness :
    (rOneWired.output.isSome ↔ 0 < rOneWired.refreshed) ∧
    (rOneWired.output = none →
      artifactAfter (fun _ => "S") "P" rOneWired = "P") ∧
    (rOneWired.output.isSome ↔
      0 < (cfgOneWired.filter (fun p => !isUnwired p.2)).length) :=
  c2_write_policy (fun _ => "S") "P" cfgOneWired emptyFS clk rOneWired rfl

/-- C3: evaluation of `latest_measure_file`.  A missing sensor directory
gives `none` and the selected file is the one with the lexicographically
maximal name independently of the listing order, as the claim states; but a
directory that exists with no regular file (empty, or holding only
subdirectories) raises `ValueError` (from `max()` on an empty sequence)
instead of returning `none`. -/
theorem c3_latest_file_cases :
    latest_measure_file fsEmptyDir "s1" = .error .valueError ∧
    latest_measure_file fsOnlySub "s1" = .error .valueError ∧
    latest_measure_file emptyFS "s1" = .ok none ∧
    latest_measure_file fsABC "s1" = .ok (some "c.json") ∧
    latest_measure_file fsCBA "s1" = .ok (some "c.json") :=
  ⟨rfl, rfl, rfl, rfl, rfl⟩

/-- C4: when the measurement record's nested `value` object carries both a
non-null `status` and a non-null `timestamp`, the snapshot entry's value is
exactly that nested object (extra fields included) with the configured name
and the sensor id; when either is missing (or JSON null), the whole raw
record becomes the entry's value. -/
theorem c4_value_extraction (sensorId : String) (attrs : SensorAttrs)
    (measure vObj : Json) (hv : measure.getd "value" (.obj []) = .ok vObj) :
    (∀ s t : Json, vObj.getOptNotNull "status" = .ok (some s) →
        vObj.getOptNotNull "timestamp" = .ok (some t) →
        deriveEntry sensorId attrs measure = .ok ⟨sensorId, attrs.name, vObj⟩) ∧
    (vObj.getOptNotNull "status" = .ok none →
        deriveEntry sensorId attrs measure = .ok ⟨sensorId, attrs.name, measure⟩) ∧
    (∀ s : Option Json, vObj.getOptNotNull "status" = .ok s →
        vObj.getOptNotNull "timestamp" = .ok none →
        deriveEntry sensorId attrs measure = .ok ⟨sensorId, attrs.name, measure⟩) := by
  refine ⟨?_, ?_, ?_⟩
  · intro s t hs ht
    unfold deriveEntry
    rw [hv]; dsimp only; rw [hs]; dsimp only; rw [ht]; dsimp only
    simp
  · intro hs
    obtain ⟨y, ht⟩ := @getOptNotNull_ok_of_ok vObj "status" "timestamp" none hs
    unfold deriveEntry
    rw [hv]; dsimp only; rw [hs]; dsimp only; rw [ht]; dsimp only
    simp
  · intro s hs ht
    unfold deriveEntry
    rw [hv]; dsimp only; rw [hs]; dsimp only; rw [ht]; dsimp only
    simp

/-- C4 witness: the spec's worked example.  The file carries its own `name`
field (`"Temp"`) and an extra `unit` field; the entry keeps the nested value
verbatim and uses the configured name. -/
theorem c4_value_extraction_witness :
    deriveEntry "s1" ⟨"Temp1(config)", some 1, none⟩ measureTemp =
      .ok ⟨"s1", "Temp1(config)",
        .obj [("status", .str "ok"), ("timestamp", .str "T1"),
              ("unit", .str "C")]⟩ :=
  (c4_value_extraction "s1" ⟨"Temp1(config)", some 1, none⟩ measureTemp
      (.obj [("status", .str "ok"), ("timestamp", .str "T1"),
             ("unit", .str "C")]) rfl).1
    (.str "ok") (.str "T1") rfl rfl

/-- C5: a sensor whose pin is the sentinel -1 contributes the entry
`{id, configured name, value: {status: "unknown", timestamp: cycle
timestamp}}`, leaves the counter and the clock untouched, and the equation
holds for every storage folder, so no filesystem access is involved for
that sensor (`refresh_output_file` instantiates `ts` with the cycle
timestamp `clock 0`). -/
theorem c5_unwired_entry (S : List (String × SensorAttrs)) (fs : FS)
    (clock : Nat → String) (ts : String) (sensorId : String)
    (attrs : SensorAttrs) (rest : List (String × SensorAttrs)) (k : Nat)
    (h : attrs.pin = some (-1)) :
    refreshLoop S fs clock ts ((sensorId, attrs) :: rest) k =
      (refreshLoop S fs clock ts rest k).map
        (fun t => ({ id := sensorId, name := attrs.name,
                     value := unknownValue ts } :: t.1, t.2.1, t.2.2)) := by
  have hu : isUnwired attrs = true := by simp [isUnwired, h]
  conv_lhs => rw [refreshLoop]
  rw [if_pos hu]
  cases hr : refreshLoop S fs clock ts rest k with
  | error err => rfl
  | ok t => obtain ⟨es, n, k'⟩ := t; rfl

/-- C5 witness: a concrete unwired sensor processed at clock index 5. -/
theorem c5_unwired_entry_witness :
    refreshLoop [] emptyFS clk "T0" [("x", ⟨"X", some (-1), none⟩)] 5 =
      (refreshLoop [] emptyFS clk "T0" [] 5).map
        (fun t => ({ id := "x", name := "X",
                     value := unknownValue "T0" } :: t.1, t.2.1, t.2.2)) :=
  c5_unwired_entry [] emptyFS clk "T0" "x" ⟨"X", some (-1), none⟩ [] 5 rfl

/-- C6: sensor `s1`'s only measurement file fails to parse while sensor
`s2`'s measurement is individually readable, yet the whole cycle evaluates
to the `JSONDecodeError` exception: the remaining sensors are not processed
and no output is produced, because `latest_measure` and
`refresh_output_file` have no handler around `json.load`. -/
theorem c6_parse_abort :
    refresh_output_file cfgTwoWired fsBadParse clk = .error .jsonDecodeError ∧
    latest_measure fsBadParse cfgTwoWired "s2" clk 1 =
      .ok (.obj [("value", .obj [("status", .str "ok"),
        ("timestamp", .str "TT")])], 1) :=
  ⟨rfl, rfl⟩

/-- C7: whenever a cycle writes the output, the written aggregate has
exactly one entry per configured sensor, in the iteration order of the
configuration mapping (the ids of the entries are exactly the configured
sensor ids, in order, hence no omission and no duplication). -/
theorem c7_one_entry_per_sensor (cfg : List (String × SensorAttrs)) (fs : FS)
    (clock : Nat → String) (r : RefreshResult) (es : List Entry)
    (h : refresh_output_file cfg fs clock = .ok r) (ho : r.output = some es) :
    es.map (fun e => e.id) = cfg.map (fun p => p.1) := by
  unfold refresh_output_file at h
  cases hl : refreshLoop cfg fs clock (clock 0) cfg 1 with
  | error err => rw [hl] at h; cases h
  | ok t =>
    obtain ⟨es₀, n, k⟩ := t
    rw [hl] at h
    cases h
    have hids := (refreshLoop_ok cfg fs clock (clock 0) cfg 1 es₀ n k hl).1
    dsimp only at ho
    by_cases h0 : 0 < n
    · rw [if_pos h0] at ho
      cases ho
      exact hids
    · rw [if_neg h0] at ho
      cases ho

/-- C7 witness: the mixed configuration over the empty storage folder. -/
theorem c7_one_entry_per_sensor_witness :
    ([⟨"u1", "U", unknownValue "T0"⟩,
      ⟨"w1", "W", unknownValue "T1"⟩] : List Entry).map (fun e => e.id) =
      cfgMixed.map (fun p => p.1) :=
  c7_one_entry_per_sensor cfgMixed emptyFS clk
    ⟨some [⟨"u1", "U", unknownValue "T0"⟩, ⟨"w1", "W", unknownValue "T1"⟩], 1, 2⟩
    [⟨"u1", "U", unknownValue "T0"⟩, ⟨"w1", "W", unknownValue "T1"⟩] rfl rfl

/-- The tick outputs never depend on the configuration sources of the later
worlds: two world sequences with the same filesystems produce the same run,
because `self._sensors` was fixed at construction. -/
theorem runTicks_config_blind (d : Denormalizer) (clock : Nat → String) :
    ∀ (n : Nat) (worlds worlds' : Nat → World),
      (∀ i, (worlds i).fs = (worlds' i).fs) →
      runTicks d worlds clock n = runTicks d worlds' clock n := by
  intro n
  induction n with
  | zero => intro worlds worlds' h; rfl
  | succ n ih =>
    intro worlds worlds' h
    have ht := ih (fun i => worlds (i + 1)) (fun i => worlds' (i + 1))
      (fun i => h (i + 1))
    show (match refresh_output_file d.sensors (worlds 0).fs clock with
      | Except.error e => [Except.error e]
      | Except.ok r => Except.ok r :: runTicks d (fun i => worlds (i + 1)) clock n) =
      (match refresh_output_file d.sensors (worlds' 0).fs clock with
      | Except.error e => [Except.error e]
      | Except.ok r => Except.ok r :: runTicks d (fun i => worlds' (i + 1)) clock n)
    rw [h 0]
    cases refresh_output_file d.sensors (worlds' 0).fs clock with
    | error err => rfl
    | ok r => rw [ht]

/-- Every element of the tick list, when present, is the refresh of the
filesystem of that very tick, computed with the sensors fixed at
construction. -/
theorem runTicks_get (d : Denormalizer) (clock : Nat → String) :
    ∀ (n : Nat) (worlds : Nat → World) (i : Nat) (x : Except PyErr RefreshResult),
      (runTicks d worlds clock n).get? i = some x →
      x = refresh_output_file d.sensors ((worlds i).fs) clock := by
  intro n
  induction n with
  | zero => intro worlds i x h; cases h
  | succ n ih =>
    intro worlds i x h
    rw [show runTicks d worlds clock (n + 1) =
      (match refresh_output_file d.sensors (worlds 0).fs clock with
       | .error e => [.error e]
       | .ok r => .ok r :: runTicks d (fun i => worlds (i + 1)) clock n)
      from rfl] at h
    cases hr : refresh_output_file d.sensors ((worlds 0).fs) clock with
    | error err =>
      rw [hr] at h
      cases i with
      | zero => cases h; exact hr.symm
      | succ j => cases h
    | ok r =>
      rw [hr] at h
      cases i with
      | zero => cases h; exact hr.symm
      | succ j => exact ih (fun i => worlds (i + 1)) j x h

/-- C8 counterexample: the configuration source gains a sensor `s2` at tick
1, the storage folder never changes, and yet the output written at tick 1
holds a single entry, for `s1` only: the configuration is not re-read after
construction, so a newly appearing sensor is not reflected in subsequent
cycles' output. -/
theorem c8_counterexample :
    ((worldsGrow 1).configSource.map (fun p => p.1)) = ["s1", "s2"] ∧
    (runTicks (Denormalizer.init (worldsGrow 0)) worldsGrow clk 2).get? 1 =
      some (.ok rOneWired) ∧
    rOneWired.output.map (fun es => es.map (fun e => e.id)) = some ["s1"] :=
  ⟨rfl, rfl, rfl⟩

/-- C8 (amended): the filesystem is re-scanned on every cycle — each tick's
output is computed from that very tick's storage folder — but the sensor
configuration is read only once, at construction, so the run is blind to any
change of the configuration source (two world sequences with the same
filesystems produce identical runs), and configuration changes require a
restart. -/
theorem c8_config_once (w0 : World) (worlds : Nat → World)
    (clock : Nat → String) (n : Nat) :
    (∀ worlds' : Nat → World, (∀ i, (worlds i).fs = (worlds' i).fs) →
      runTicks (Denormalizer.init w0) worlds clock n =
        runTicks (Denormalizer.init w0) worlds' clock n) ∧
    (∀ (i : Nat) (x : Except PyErr RefreshResult),
      (runTicks (Denormalizer.init w0) worlds clock n).get? i = some x →
      x = refresh_output_file (configure w0.configSource) ((worlds i).fs) clock) := by
  constructor
  · intro worlds' h
    exact runTicks_config_blind (Denormalizer.init w0) clock n worlds worlds' h
  · intro i x h
    exact runTicks_get (Denormalizer.init w0) clock n worlds i x h

/-- C8 witness: a run whose configuration source grows at tick 1 equals the
run with the static source, and tick 0's element is the refresh of tick 0's
filesystem. -/
theorem c8_config_once_witness :
    runTicks (Denormalizer.init ⟨cfgOneWired, emptyFS⟩) worldsGrow clk 2 =
      runTicks (Denormalizer.init ⟨cfgOneWired, emptyFS⟩) worldsStatic clk 2 ∧
    (Except.ok rOneWired : Except PyErr RefreshResult) =
      refresh_output_file (configure cfgOneWired) ((worldsGrow 0).fs) clk :=
  ⟨(c8_config_once ⟨cfgOneWired, emptyFS⟩ worldsGrow clk 2).1 worldsStatic
      (fun i => match i with | 0 => rfl | _ + 1 => rfl),
   (c8_config_once ⟨cfgOneWired, emptyFS⟩ worldsGrow clk 2).2 0
      (.ok rOneWired) rfl⟩

/-- Helper: `configureFrom` copies every `pin` field unchanged. -/
theorem configureFrom_pin : ∀ (i : Nat) (cfg : List (String × SensorAttrs)),
    (configureFrom i cfg).map (fun p => (p.1, p.2.pin)) =
      cfg.map (fun p => (p.1, p.2.pin)) := by
  intro i cfg
  induction cfg generalizing i with
  | nil => rfl
  | cons p rest ih =>
    obtain ⟨sid, attrs⟩ := p
    simp [configureFrom, ih]

/-- C9 counterexample: a sensor whose source entry has no `pin` field still
has no `pin` value after configuration load (`configure` only adds `index`);
its pin is not the explicit sentinel `some (-1)`. -/
theorem c9_counterexample :
    configure [("s1", ⟨"X", none, none⟩)] = [("s1", ⟨"X", none, some 0⟩)] ∧
    (⟨"X", none, some 0⟩ : SensorAttrs).pin ≠ some (-1) :=
  ⟨rfl, by decide⟩

/-- C9 (amended): configuration load leaves the `pin` field exactly as it
was in the source — in particular an absent pin stays absent — and the
"not wired" sentinel -1 is applied only at lookup time, by the defaulting
read `get("pin", -1)` in the refresh loop, which classifies a sensor with
an absent pin as unwired. -/
theorem c9_pin_left_unset :
    (∀ cfg : List (String × SensorAttrs),
      (configure cfg).map (fun p => (p.1, p.2.pin)) =
        cfg.map (fun p => (p.1, p.2.pin))) ∧
    (∀ attrs : SensorAttrs, attrs.pin = none → isUnwired attrs = true) := by
  constructor
  · intro cfg
    exact configureFrom_pin 0 cfg
  · intro attrs h
    simp [isUnwired, h]

/-- C9 witness: the amended claim at a one-sensor configuration with an
absent pin. -/
theorem c9_pin_left_unset_witness :
    (configure [("s1", ⟨"X", none, none⟩)]).map (fun p => (p.1, p.2.pin)) =
      ([("s1", (⟨"X", none, none⟩ : SensorAttrs))]).map (fun p => (p.1, p.2.pin)) ∧
    isUnwired ⟨"X", none, none⟩ = true :=
  ⟨c9_pin_left_unset.1 _, c9_pin_left_unset.2 ⟨"X", none, none⟩ rfl⟩

/-- Specification relation for the clock reads of one cycle, following the
claim's words: every unwired sensor's synthetic record carries the single
cycle timestamp `ts` (instantiated with clock read 0); every wired sensor
without a measurement file consumes the next fresh clock read, `clock k`,
for its own record, advancing the clock so that no two such sensors share a
read; a wired sensor with a measurement file consumes no clock read and its
entry is unconstrained here. -/
inductive TimestampsSpec (S : List (String × SensorAttrs)) (fs : FS)
    (clock : Nat → String) (ts : String) :
    List (String × SensorAttrs) → List Entry → Nat → Nat → Prop where
  | nil (k : Nat) : TimestampsSpec S fs clock ts [] [] k k
  | unwired (sensorId : String) (attrs : SensorAttrs)
      (rest : List (String × SensorAttrs)) (es : List Entry) (k k' : Nat)
      (hu : isUnwired attrs = true)
      (h : TimestampsSpec S fs clock ts rest es k k') :
      TimestampsSpec S fs clock ts ((sensorId, attrs) :: rest)
        ({ id := sensorId, name := attrs.name, value := unknownValue ts } :: es)
        k k'
  | wiredNoFile (sensorId : String) (attrs : SensorAttrs)
      (rest : List (String × SensorAttrs)) (es : List Entry) (k k' : Nat)
      (hw : isUnwired attrs = false)
      (hf : latest_measure_file fs sensorId = .ok none)
      (hs : (S.lookup sensorId).isSome = true)
      (h : TimestampsSpec S fs clock ts rest es (k + 1) k') :
      TimestampsSpec S fs clock ts ((sensorId, attrs) :: rest)
        ({ id := sensorId, name := attrs.name,
           value := unknownValue (clock k) } :: es) k k'
  | wiredFile (sensorId : String) (attrs : SensorAttrs)
      (rest : List (String × SensorAttrs)) (e : Entry) (es : List Entry)
      (k k' : Nat) (f : String)
      (hw : isUnwired attrs = false)
      (hf : latest_measure_file fs sensorId = .ok (some f))
      (h : TimestampsSpec S fs clock ts rest es k k') :
      TimestampsSpec S fs clock ts ((sensorId, attrs) :: rest) (e :: es) k k'

/-- The refresh loop satisfies the clock-read specification. -/
theorem refreshLoop_timestamps (S : List (String × SensorAttrs)) (fs : FS)
    (clock : Nat → String) (ts : String) :
    ∀ (l : List (String × SensorAttrs)) (k : Nat) (es : List Entry) (n k' : Nat),
      refreshLoop S fs clock ts l k = .ok (es, n, k') →
      TimestampsSpec S fs clock ts l es k k' := by
  intro l
  induction l with
  | nil =>
    intro k es n k' h
    unfold refreshLoop at h
    cases h
    exact .nil k
  | cons p rest ih =>
    obtain ⟨sid, attrs⟩ := p
    intro k es n k' h
    unfold refreshLoop at h
    by_cases hu : isUnwired attrs
    · rw [if_pos hu] at h
      cases hr : refreshLoop S fs clock ts rest k with
      | error err => rw [hr] at h; cases h
      | ok t =>
        obtain ⟨es₀, n₀, k₀⟩ := t
        rw [hr] at h
        cases h
        exact .unwired sid attrs rest es₀ k _ hu (ih _ _ _ _ hr)
    · rw [if_neg hu] at h
      cases hf : latest_measure_file fs sid with
      | error err =>
        have hm : latest_measure fs S sid clock k = .error err := by
          unfold latest_measure; rw [hf]
        rw [hm] at h; cases h
      | ok o =>
        cases o with
        | none =>
          cases hs : S.lookup sid with
          | none =>
            have hm : latest_measure fs S sid clock k = .error .keyError := by
              unfold latest_measure; rw [hf]; dsimp only; rw [hs]
            rw [hm] at h; cases h
          | some a =>
            have hm : latest_measure fs S sid clock k =
                .ok (syntheticMeasure sid a.name (clock k), k + 1) := by
              unfold latest_measure; rw [hf]; dsimp only; rw [hs]
            rw [hm] at h
            dsimp only at h
            have hd : deriveEntry sid attrs (syntheticMeasure sid a.name (clock k)) =
                .ok ⟨sid, attrs.name, unknownValue (clock k)⟩ := rfl
            rw [hd] at h
            dsimp only at h
            cases hr : refreshLoop S fs clock ts rest (k + 1) with
            | error err => rw [hr] at h; cases h
            | ok t =>
              obtain ⟨es₀, n₀, k₀⟩ := t
              rw [hr] at h
              cases h
              exact .wiredNoFile sid attrs rest es₀ k _ (by simpa using hu) hf
                (by simp [hs]) (ih _ _ _ _ hr)
        | some f =>
          cases hc : fs.readFile sid f with
          | none =>
            have hm : latest_measure fs S sid clock k = .error .fileNotFound := by
              unfold latest_measure; rw [hf]; dsimp only; rw [hc]
            rw [hm] at h; cases h
          | some c =>
            cases c with
            | none =>
              have hm : latest_measure fs S sid clock k =
                  .error .jsonDecodeError := by
                unfold latest_measure; rw [hf]; dsimp only; rw [hc]
              rw [hm] at h; cases h
            | some j =>
              have hm : latest_measure fs S sid clock k = .ok (j, k) := by
                unfold latest_measure; rw [hf]; dsimp only; rw [hc]
              rw [hm] at h
              dsimp only at h
              cases hd : deriveEntry sid attrs j with
              | error err => rw [hd] at h; cases h
              | ok entry =>
                rw [hd] at h
                dsimp only at h
                cases hr : refreshLoop S fs clock ts rest k with
                | error err => rw [hr] at h; cases h
                | ok t =>
                  obtain ⟨es₀, n₀, k₀⟩ := t
                  rw [hr] at h
                  cases h
                  exact .wiredFile sid attrs rest entry es₀ k _ f
                    (by simpa using hu) hf (ih _ _ _ _ hr)

/-- C10: in a written cycle, every unwired sensor's synthetic record carries
the one timestamp formatted from clock read 0, taken at the start of the
cycle, while every wired sensor without a measurement file consumes its own
fresh clock read (the clock index advances past it), so no two of those
share a read and none reuses read 0. -/
theorem c10_timestamps (cfg : List (String × SensorAttrs)) (fs : FS)
    (clock : Nat → String) (r : RefreshResult) (es : List Entry)
    (h : refresh_output_file cfg fs clock = .ok r) (ho : r.output = some es) :
    TimestampsSpec cfg fs clock (clock 0) cfg es 1 r.clockNext := by
  unfold refresh_output_file at h
  cases hl : refreshLoop cfg fs clock (clock 0) cfg 1 with
  | error err => rw [hl] at h; cases h
  | ok t =>
    obtain ⟨es₀, n, k⟩ := t
    rw [hl] at h
    cases h
    dsimp only at ho ⊢
    by_cases h0 : 0 < n
    · rw [if_pos h0] at ho
      cases ho
      exact refreshLoop_timestamps cfg fs clock (clock 0) cfg 1 _ n k hl
    · rw [if_neg h0] at ho
      cases ho

/-- C10 witness: the mixed configuration over the empty storage folder; the
unwired sensor gets the cycle timestamp (read 0) and the wired sensor with
no file the fresh read 1. -/
theorem c10_timestamps_witness :
    TimestampsSpec cfgMixed emptyFS clk (clk 0) cfgMixed
      [⟨"u1", "U", unknownValue "T0"⟩, ⟨"w1", "W", unknownValue "T1"⟩] 1 2 :=
  c10_timestamps cfgMixed emptyFS clk
    ⟨some [⟨"u1", "U", unknownValue "T0"⟩, ⟨"w1", "W", unknownValue "T1"⟩], 1, 2⟩
    [⟨"u1", "U", unknownValue "T0"⟩, ⟨"w1", "W", unknownValue "T1"⟩] rfl rfl

end A2Sensor
